import Mathlib

/-!
Shallow embedding of `web-scraper-python/rss.py` (feed normalization core).

The HTML library (BeautifulSoup) is treated as an external collaborator, as
the specification directs: `extractText : String → String` stands for
`BeautifulSoup(html).get_text(separator=' ', strip=True)` on non-empty input,
and `imgSrc : String → Option String` stands for "the `src` of the first
`<img>` tag when that tag exists and its `src` is non-empty".  The theorems
quantify over these collaborator functions.

Python strings are modelled as Lean `String` (both are sequences of Unicode
code points, so `len`/slicing agree with `String.length`/`List.take` on
`String.data`).  Optional / missing mapping fields are modelled as `Option`;
where the Python code explicitly guards with `isinstance(..., dict)` or
`isinstance(..., list)` the model keeps a "non-dict / non-list" constructor
so those guards stay visible.
-/

namespace Rss

/-- The set of characters stripped by Python `str.strip()` and matched by the
regex class `\s` on `str` patterns (Unicode whitespace in CPython). -/
def isPySpace (c : Char) : Bool :=
  let n := c.toNat
  (n == 9) || (n == 10) || (n == 11) || (n == 12) || (n == 13) ||
  (n == 28) || (n == 29) || (n == 30) || (n == 31) ||
  (n == 32) || (n == 133) || (n == 160) || (n == 5760) ||
  (Nat.ble 8192 n && Nat.ble n 8202) ||
  (n == 8232) || (n == 8233) || (n == 8239) || (n == 8287) || (n == 12288)

/-- Python `str.strip()`. -/
def pyStrip (s : String) : String :=
  String.mk (((s.data.dropWhile isPySpace).reverse.dropWhile isPySpace).reverse)

/-- Python `str.rstrip()`. -/
def pyRstrip (s : String) : String :=
  String.mk ((s.data.reverse.dropWhile isPySpace).reverse)

/-- Truthiness of an optional Python string: `None` and `''` are falsy. -/
def truthy : Option String → Bool
  | none => false
  | some s => !(s == "")

/-- Python `a or b` on two optional strings (used for
`entry.get('summary') or entry.get('description')` and `url or href`). -/
def pyOrStr (a b : Option String) : Option String :=
  if truthy a then a else b

/-- Python `x or default` where `x` is an optional string and `default` a
string (used for the feed-level `title`/`link` fallbacks). -/
def pyOrDefault (a : Option String) (d : String) : String :=
  match a with
  | none => d
  | some s => if s == "" then d else s

/-- First segment of `re.split(r'(?<=\.)\s+', s)`: the characters of `s` up
to and including the first `'.'` that is immediately followed by a whitespace
character; the whole string when no such boundary exists. -/
def firstSentenceChars : List Char → List Char
  | [] => []
  | c :: rest =>
    if c == '.' then
      match rest with
      | [] => ['.']
      | d :: rest2 =>
        if isPySpace d then ['.'] else '.' :: firstSentenceChars (d :: rest2)
    else c :: firstSentenceChars rest

/-- `_extract_plain_text`: empty/absent input yields `''`, otherwise the HTML
collaborator's text extraction is applied. -/
def extract_plain_text (extractText : String → String) : Option String → String
  | none => ""
  | some s => if s == "" then "" else extractText s

/-! ### Raw entry model -/

/-- An element of a `media_content` / `media_thumbnail` list: either a dict
with optional `url`/`href` string values, or some non-dict value the code
skips over. -/
inductive MediaItem
  | dict (url : Option String) (href : Option String)
  | nondict
deriving Repr, DecidableEq

/-- A `media_content` / `media_thumbnail` value: a list, or a non-list value
(the `isinstance(..., list)` guard fails and the step is skipped). -/
inductive MediaList
  | list (items : List MediaItem)
  | nonlist
deriving Repr, DecidableEq

/-- An element of the `links` list: either a dict with optional `type`/`href`
strings, or a non-dict value the code skips. -/
inductive LinkItem
  | dict (type : Option String) (href : Option String)
  | nondict
deriving Repr, DecidableEq

/-- A `summary_detail` value: a dict with an optional `value` string, or a
non-dict value (the `isinstance(..., dict)` guard fails). -/
inductive SummaryDetailVal
  | dict (value : Option String)
  | nondict
deriving Repr, DecidableEq

/-- A nested `source` value: a dict with an optional `title` string, or a
non-dict value (the `isinstance(entry['source'], dict)` guard fails). -/
inductive SourceVal
  | dict (title : Option String)
  | nondict
deriving Repr, DecidableEq

/-- A `time.struct_time` as used by `_format_datetime` (the six fields the
code reads). -/
structure StructTime where
  tm_year : Int
  tm_mon : Int
  tm_mday : Int
  tm_hour : Int
  tm_min : Int
  tm_sec : Int
deriving Repr, DecidableEq

/-- A raw parsed entry (`feedparser.FeedParserDict`): every field the
normalizer reads, each possibly absent. -/
structure RawEntry where
  title : Option String := none
  link : Option String := none
  summary : Option String := none
  description : Option String := none
  subtitle : Option String := none
  summary_detail : Option SummaryDetailVal := none
  media_content : Option MediaList := none
  media_thumbnail : Option MediaList := none
  links : Option (List LinkItem) := none
  published_parsed : Option StructTime := none
  updated_parsed : Option StructTime := none
  source : Option SourceVal := none
deriving Repr, DecidableEq

/-- The canonical normalized entry (`FeedEntry` dataclass). -/
structure FeedEntry where
  title : String
  summary : String
  link : String
  published : Option String
  source : Option String
  subtitle : Option String
  image : Option String
deriving Repr, DecidableEq

/-! ### Subtitle derivation -/

/-- The literal the source appends when truncating: the mis-encoded
three-character sequence `Ã¢ â‚¬ Â¦` found verbatim in `rss.py`
(`trimmed[:157].rstrip() + '...'` with that literal). -/
def srcEllipsis : String := "â€¦"

/-- `_derive_subtitle`, translated line by line.  An explicit non-empty
`subtitle` field returns immediately (HTML-stripped, no sentence split, no
truncation); otherwise the candidate is the non-empty HTML-stripped
`summary_detail` text, else the non-empty plain-text summary, else the
result is `None`; the chosen candidate is split at the first
period-followed-by-whitespace boundary, trimmed, truncated at 160 with the
157-prefix + ellipsis rule, and an empty result becomes `None`. -/
def derive_subtitle (extractText : String → String) (e : RawEntry)
    (summary_text : String) : Option String :=
  if truthy e.subtitle then
    some (extract_plain_text extractText e.subtitle)
  else
    let cand1 : String :=
      match e.summary_detail with
      | some (SummaryDetailVal.dict v) =>
        if truthy v then
          let detail_text := extract_plain_text extractText v
          if detail_text == "" then "" else detail_text
        else ""
      | _ => ""
    let cand2 : String :=
      if cand1 == "" && !(summary_text == "") then summary_text else cand1
    if cand2 == "" then none
    else
      let primary := String.mk (firstSentenceChars cand2.data)
      let trimmed := pyStrip primary
      if 160 < trimmed.length then
        some (pyRstrip (String.mk (trimmed.data.take 157)) ++ srcEllipsis)
      else if trimmed == "" then none else some trimmed

/-! ### Date normalization -/

/-- Leap-year rule used by Python's `datetime`. -/
def isLeap (y : Int) : Bool :=
  (y % 4 == 0) && (!(y % 100 == 0) || (y % 400 == 0))

/-- Days in a month, as validated by the `datetime` constructor. -/
def daysInMonth (y m : Int) : Int :=
  if m == 2 then (if isLeap y then 29 else 28)
  else if m == 4 || m == 6 || m == 9 || m == 11 then 30
  else 31

/-- Range check performed by the `datetime(...)` constructor: a `ValueError`
is raised exactly when this is false. -/
def validDatetime (t : StructTime) : Bool :=
  (1 ≤ t.tm_year && t.tm_year ≤ 9999) &&
  (1 ≤ t.tm_mon && t.tm_mon ≤ 12) &&
  (1 ≤ t.tm_mday && t.tm_mday ≤ daysInMonth t.tm_year t.tm_mon) &&
  (0 ≤ t.tm_hour && t.tm_hour ≤ 23) &&
  (0 ≤ t.tm_min && t.tm_min ≤ 59) &&
  (0 ≤ t.tm_sec && t.tm_sec ≤ 59)

/-- Zero-pad a natural number to the given width. -/
def padNum (w : Nat) (n : Nat) : String :=
  let s := toString n
  String.mk (List.replicate (w - s.length) '0') ++ s

/-- `datetime.isoformat()` for a whole-second naive datetime:
`YYYY-MM-DDTHH:MM:SS`, no timezone offset. -/
def isoFormat (t : StructTime) : String :=
  padNum 4 t.tm_year.toNat ++ "-" ++ padNum 2 t.tm_mon.toNat ++ "-" ++
  padNum 2 t.tm_mday.toNat ++ "T" ++ padNum 2 t.tm_hour.toNat ++ ":" ++
  padNum 2 t.tm_min.toNat ++ ":" ++ padNum 2 t.tm_sec.toNat

/-- `_format_datetime`: `None` for an absent struct time; otherwise the
constructor's range check decides between the ISO string and the
`except (TypeError, ValueError): return None` fallback. -/
def format_datetime : Option StructTime → Option String
  | none => none
  | some t => if validDatetime t then some (isoFormat t) else none

/-! ### Image discovery -/

/-- Loop body of the `media_content` / `media_thumbnail` scans:
`url = item.get('url') or item.get('href'); if url: return url`. -/
def firstItemUrl : List MediaItem → Option String
  | [] => none
  | MediaItem.nondict :: rest => firstItemUrl rest
  | MediaItem.dict url href :: rest =>
    let u := pyOrStr url href
    if truthy u then u else firstItemUrl rest

/-- The `media_content` / `media_thumbnail` step including the
`isinstance(..., list)` guard. -/
def firstMediaUrl : Option MediaList → Option String
  | some (MediaList.list items) => firstItemUrl items
  | _ => none

/-- Loop over `entry.get('links', []) or []`: first link whose `type` starts
with `image` and whose `href` is truthy. -/
def firstImageLink : List LinkItem → Option String
  | [] => none
  | LinkItem.nondict :: rest => firstImageLink rest
  | LinkItem.dict ty href :: rest =>
    if (ty.getD "").startsWith "image" && truthy href then href
    else firstImageLink rest

/-- `_extract_image`, translated with its early returns as a cascade. -/
def extract_image (imgSrc : String → Option String) (e : RawEntry) :
    Option String :=
  match firstMediaUrl e.media_content with
  | some u => some u
  | none =>
  match firstMediaUrl e.media_thumbnail with
  | some u => some u
  | none =>
  match firstImageLink (e.links.getD []) with
  | some u => some u
  | none =>
  match
    (match e.summary_detail with
     | some (SummaryDetailVal.dict v) =>
       match v with
       | some html_value => if html_value == "" then none else imgSrc html_value
       | none => none
     | _ => none) with
  | some u => some u
  | none =>
  match pyOrStr e.summary e.description with
  | some summary_html =>
    if summary_html == "" then none else imgSrc summary_html
  | none => none

/-! ### Source attribution and `urlparse` -/

/-- Characters allowed in a URL scheme after the first (CPython
`scheme_chars`: ASCII letters, digits, `+`, `-`, `.`). -/
def schemeChar (c : Char) : Bool :=
  c.isAlpha || c.isDigit || c == '+' || c == '-' || c == '.'

/-- Modelled from the spec and CPython's `urllib.parse.urlsplit` (the URL
parser is a standard-library collaborator, not code of this repository):
strip a leading `scheme:` when the text before the first `:` is a valid
scheme, then, when the remainder starts with `//`, the network location is
everything up to the next `/`, `?` or `#`; a network location containing
`[` without `]` (or `]` without `[`) raises `ValueError('Invalid IPv6 URL')`,
modelled as `Except.error`. -/
def urlparseNetloc (url : String) : Except String String :=
  let l := url.data
  let rest :=
    match l.findIdx? (fun c => c == ':') with
    | some i =>
      if !(i == 0) && (match l with | c :: _ => c.isAlpha | [] => false) &&
          (l.take i).all schemeChar then
        l.drop (i + 1)
      else l
    | none => l
  match rest with
  | '/' :: '/' :: after =>
    let netloc := after.takeWhile (fun c => !(c == '/' || c == '?' || c == '#'))
    if (netloc.contains '[' && !netloc.contains ']') ||
       (netloc.contains ']' && !netloc.contains '[') then
      Except.error "Invalid IPv6 URL"
    else
      Except.ok (String.mk netloc)
  | _ => Except.ok ""

/-- The explicit nested-source step of `_normalize_entry`:
`(entry['source'].get('title') or '').strip() or None` under the
`isinstance(entry['source'], dict)` guard. -/
def source_title (e : RawEntry) : Option String :=
  match e.source with
  | some (SourceVal.dict t) =>
    let s := pyStrip (t.getD "")
    if s == "" then none else some s
  | _ => none

/-! ### Entry normalization -/

/-- The host fallback of `_normalize_entry`:
`if not source and link: parsed = urlparse(link); if parsed.netloc: ...`.
The `urlparse` call may raise, hence the `Except`. -/
def resolve_source (source1 : Option String) (link : String) :
    Except String (Option String) :=
  if source1.isNone && !(link == "") then
    match urlparseNetloc link with
    | Except.error msg => Except.error msg
    | Except.ok netloc =>
      Except.ok (if netloc == "" then none else some netloc)
  else Except.ok source1

/-- `_normalize_entry`.  The only fallible step is the `urlparse` call in the
source fallback (its `ValueError` propagates, hence the `Except`). -/
def normalize_entry (extractText : String → String)
    (imgSrc : String → Option String) (e : RawEntry) :
    Except String FeedEntry :=
  let title := pyStrip (e.title.getD "")
  let link := pyStrip (e.link.getD "")
  let summary := extract_plain_text extractText (pyOrStr e.summary e.description)
  let published :=
    match e.published_parsed with
    | some t => some t
    | none => e.updated_parsed
  let published_iso := format_datetime published
  match resolve_source (source_title e) link with
  | Except.error msg => Except.error msg
  | Except.ok source =>
    let image := extract_image imgSrc e
    let subtitle := derive_subtitle extractText e summary
    Except.ok
      { title := title, summary := summary, link := link,
        published := published_iso, source := source,
        subtitle := subtitle, image := image }

/-! ### Feed fetching -/

/-- The parsed feed-level metadata (`parsed.feed` when that mapping is
truthy, i.e. non-empty). -/
structure FeedMeta where
  title : Option String := none
  link : Option String := none
deriving Repr, DecidableEq

/-- The result of `feedparser.parse`: the bozo flag, the optional
`bozo_exception` (modelled by its string rendering — exception objects are
always truthy), the feed metadata (`none` models a falsy/empty
`parsed.feed`), and the raw entries. -/
structure ParsedFeed where
  bozo : Bool := false
  bozo_exception : Option String := none
  feed : Option FeedMeta := none
  entries : List RawEntry := []

/-- The `FeedResult` dataclass. -/
structure FeedResult where
  feed_title : String
  feed_link : String
  entries : List FeedEntry
deriving Repr, DecidableEq

def MAX_ITEMS : Nat := 100

def DEFAULT_FEED_URL : String :=
  "https://rss.feedspot.com/u/72252f9f2933826fe9d1a2da83d6122c/rss/rsscombiner"

/-- The `limit` keyword argument: absent (`None`), a usable number, or some
non-numeric value (the `isinstance(limit, (int, float))` guard fails). -/
inductive LimitVal
  | none
  | num (i : Int)
  | other
deriving Repr, DecidableEq

/-- The effective entry cap computed by `fetch_feed`. -/
def effective_limit : LimitVal → Nat
  | LimitVal.none => MAX_ITEMS
  | LimitVal.other => MAX_ITEMS
  | LimitVal.num i => if i ≤ 0 then MAX_ITEMS else min i.toNat MAX_ITEMS

/-- `url = (feed_url or DEFAULT_FEED_URL).strip()`. -/
def resolved_url (feed_url : String) : String :=
  pyStrip (if feed_url == "" then DEFAULT_FEED_URL else feed_url)

/-- `(parsed.feed.get('title') if parsed.feed else '') or 'RSS Feed'`. -/
def feed_title_of (p : ParsedFeed) : String :=
  match p.feed with
  | some m => pyOrDefault m.title "RSS Feed"
  | none => "RSS Feed"

/-- `(parsed.feed.get('link') if parsed.feed else '') or url`. -/
def feed_link_of (p : ParsedFeed) (url : String) : String :=
  match p.feed with
  | some m => pyOrDefault m.link url
  | none => url

/-- The list comprehension `[_normalize_entry(e) for e in ...]`: the first
exception (if any) propagates. -/
def normalize_all (extractText : String → String)
    (imgSrc : String → Option String) :
    List RawEntry → Except String (List FeedEntry)
  | [] => Except.ok []
  | e :: rest =>
    match normalize_entry extractText imgSrc e with
    | Except.error msg => Except.error msg
    | Except.ok fe =>
      match normalize_all extractText imgSrc rest with
      | Except.error msg => Except.error msg
      | Except.ok fes => Except.ok (fe :: fes)

/-- `fetch_feed`, parameterized by the `feedparser.parse` collaborator. -/
def fetch_feed (parse : String → ParsedFeed) (extractText : String → String)
    (imgSrc : String → Option String) (feed_url : String)
    (limit : LimitVal) : Except String FeedResult :=
  let url := resolved_url feed_url
  let parsed := parse url
  match parsed.bozo, parsed.bozo_exception with
  | true, some c => Except.error ("Unable to parse feed: " ++ c)
  | _, _ =>
    match normalize_all extractText imgSrc
        (parsed.entries.take (effective_limit limit)) with
    | Except.error msg => Except.error msg
    | Except.ok es =>
      Except.ok
        { feed_title := feed_title_of parsed,
          feed_link := feed_link_of parsed url, entries := es }

/-! ### Spec-side characterizations (for refinement claims) -/

/-- First-match-wins combinator used to state priority orders. -/
def orElseO {α : Type} (a b : Option α) : Option α :=
  match a with
  | some x => some x
  | none => b

/-- Spec-side image step 1: first URL in the media-content list. -/
def media_content_image (e : RawEntry) : Option String :=
  firstMediaUrl e.media_content

/-- Spec-side image step 2: first URL in the media-thumbnail list. -/
def media_thumbnail_image (e : RawEntry) : Option String :=
  firstMediaUrl e.media_thumbnail

/-- Spec-side image step 3: first link with an image MIME type. -/
def link_image (e : RawEntry) : Option String :=
  firstImageLink (e.links.getD [])

/-- Spec-side image step 4: first `<img src>` in the summary-detail HTML. -/
def summary_detail_image (imgSrc : String → Option String) (e : RawEntry) :
    Option String :=
  match e.summary_detail with
  | some (SummaryDetailVal.dict v) =>
    match v with
    | some html_value => if html_value == "" then none else imgSrc html_value
    | none => none
  | _ => none

/-- Spec-side image step 5: first `<img src>` in the summary/description
HTML. -/
def summary_image (imgSrc : String → Option String) (e : RawEntry) :
    Option String :=
  match pyOrStr e.summary e.description with
  | some summary_html =>
    if summary_html == "" then none else imgSrc summary_html
  | none => none

/-- The image-discovery priority order exactly as the specification lists
it: five steps, first match wins. -/
def image_priority_spec (imgSrc : String → Option String) (e : RawEntry) :
    Option String :=
  orElseO (media_content_image e)
    (orElseO (media_thumbnail_image e)
      (orElseO (link_image e)
        (orElseO (summary_detail_image imgSrc e) (summary_image imgSrc e))))

/-- Spec-side choice of the fallback subtitle source text (when no explicit
non-empty `subtitle` field is present): non-empty HTML-stripped
summary-detail text, else the non-empty plain-text summary, else nothing. -/
def chosen_fallback_text (extractText : String → String) (e : RawEntry)
    (summary_text : String) : Option String :=
  let detail : String :=
    match e.summary_detail with
    | some (SummaryDetailVal.dict v) =>
      if truthy v then extract_plain_text extractText v else ""
    | _ => ""
  if !(detail == "") then some detail
  else if !(summary_text == "") then some summary_text
  else none

/-- Spec-side sentence pipeline: split after a period followed by
whitespace, take the first sentence, trim, truncate (157 characters, strip
trailing whitespace, append the source's ellipsis marker) when the result
exceeds 160 characters, and turn an empty result into `none`. -/
def sentence_clip (c : String) : Option String :=
  let trimmed := pyStrip (String.mk (firstSentenceChars c.data))
  if 160 < trimmed.length then
    some (pyRstrip (String.mk (trimmed.data.take 157)) ++ srcEllipsis)
  else if trimmed == "" then none else some trimmed

/-- The subtitle pipeline exactly as claim C5 words it: choose the source
text (explicit subtitle, else non-empty detail text, else non-empty
summary), then apply the sentence split / trim / truncation (with a single
U+2026 ellipsis character) / empty-to-null steps to whichever text was
chosen. -/
def subtitle_claim_pipeline (extractText : String → String) (e : RawEntry)
    (summary_text : String) : Option String :=
  let chosen : Option String :=
    if truthy e.subtitle then some (extract_plain_text extractText e.subtitle)
    else chosen_fallback_text extractText e summary_text
  match chosen with
  | none => none
  | some c =>
    let trimmed := pyStrip (String.mk (firstSentenceChars c.data))
    if 160 < trimmed.length then
      some (pyRstrip (String.mk (trimmed.data.take 157)) ++ "…")
    else if trimmed == "" then none else some trimmed


/-! ### Concrete instances used by witnesses and counterexamples -/

def bozoBoomFeed : ParsedFeed := { bozo := true, bozo_exception := some "boom" }

def bozoNoCauseFeed : ParsedFeed :=
  { bozo := true, bozo_exception := none, entries := [{}] }

def emptyFeedResult : FeedResult :=
  { feed_title := "RSS Feed", feed_link := "https://example.com/feed",
    entries := [] }

def sevenEntriesFeed : ParsedFeed :=
  { entries := List.replicate 7 {} }

def threeEmptyResult : FeedResult :=
  { feed_title := "RSS Feed", feed_link := "https://example.com/feed",
    entries := List.replicate 3
      { title := "", summary := "", link := "", published := none,
        source := none, subtitle := none, image := none } }

def julyEntry : RawEntry := { published_parsed := some ⟨2024, 7, 4, 10, 30, 0⟩ }

def julyFeedEntry : FeedEntry :=
  { title := "", summary := "", link := "",
    published := some "2024-07-04T10:30:00", source := none,
    subtitle := none, image := none }

def newsEntry : RawEntry := { link := some "https://news.example.com/x" }

def newsFeedEntry : FeedEntry :=
  { title := "", summary := "", link := "https://news.example.com/x",
    published := none, source := some "news.example.com",
    subtitle := none, image := none }

/-- A 200-character explicit subtitle text. -/
def longSubtitleText : String := String.mk (List.replicate 200 'a')

/-- The clipped form of `longSubtitleText` after the fallback pipeline:
157 characters plus the truncation marker. -/
def clippedLongText : String :=
  String.mk (List.replicate 157 'a') ++ srcEllipsis

def inlineSummaryHtml : String :=
  "<p><img src=\"https://example.com/inline.jpg\"></p>"

/-- A concrete HTML collaborator that finds the inline image in
`inlineSummaryHtml` and nothing elsewhere. -/
def demoImgSrc : String → Option String := fun s =>
  if s == inlineSummaryHtml then some "https://example.com/inline.jpg"
  else none

/-- An entry carrying both a media-content URL and an inline `<img>` in its
summary. -/
def mediaAndInlineEntry : RawEntry :=
  { media_content := some (MediaList.list
      [MediaItem.dict (some "https://cdn.example.com/media.jpg") none]),
    summary := some inlineSummaryHtml }

/-! ### Helper lemmas -/

theorem length_mk (l : List Char) : (String.mk l).length = l.length := rfl

theorem length_dropWhile_le (p : Char → Bool) :
    ∀ l : List Char, (List.dropWhile p l).length ≤ l.length := by
  intro l
  induction l with
  | nil => exact Nat.le_refl _
  | cons c rest ih =>
    rw [List.dropWhile_cons]
    by_cases h : p c
    · simp only [h, if_true]
      exact Nat.le_trans ih (Nat.le_succ _)
    · simp only [h, if_false]
      exact Nat.le_refl _

theorem pyRstrip_length_le (s : String) : (pyRstrip s).length ≤ s.length := by
  show ((s.data.reverse.dropWhile isPySpace).reverse).length ≤ s.data.length
  rw [List.length_reverse]
  calc (s.data.reverse.dropWhile isPySpace).length
      ≤ s.data.reverse.length := length_dropWhile_le _ _
    _ = s.data.length := List.length_reverse _

theorem normalize_all_forall2 (f : String → String)
    (img : String → Option String) :
    ∀ (l : List RawEntry) (l2 : List FeedEntry),
      normalize_all f img l = Except.ok l2 →
      List.Forall₂ (fun e fe => normalize_entry f img e = Except.ok fe) l l2 := by
  intro l
  induction l with
  | nil =>
    intro l2 h
    simp only [normalize_all] at h
    injection h with h2
    subst h2
    exact List.Forall₂.nil
  | cons e rest ih =>
    intro l2 h
    simp only [normalize_all] at h
    cases he : normalize_entry f img e with
    | error msg => rw [he] at h; exact Except.noConfusion h
    | ok fe =>
      rw [he] at h
      cases hr : normalize_all f img rest with
      | error msg => rw [hr] at h; exact Except.noConfusion h
      | ok fes =>
        rw [hr] at h
        injection h with h2
        subst h2
        exact List.Forall₂.cons he (ih fes hr)

theorem fetch_feed_ok_inversion (parse : String → ParsedFeed)
    (f : String → String) (img : String → Option String) (url : String)
    (lim : LimitVal) (r : FeedResult)
    (h : fetch_feed parse f img url lim = Except.ok r) :
    normalize_all f img
        ((parse (resolved_url url)).entries.take (effective_limit lim)) =
      Except.ok r.entries ∧
    r.feed_title = feed_title_of (parse (resolved_url url)) ∧
    r.feed_link = feed_link_of (parse (resolved_url url)) (resolved_url url) := by
  simp only [fetch_feed] at h
  cases hb : (parse (resolved_url url)).bozo with
  | true =>
    rw [hb] at h
    cases he : (parse (resolved_url url)).bozo_exception with
    | some c => rw [he] at h; exact Except.noConfusion h
    | none =>
      rw [he] at h
      cases hn : normalize_all f img
          ((parse (resolved_url url)).entries.take (effective_limit lim)) with
      | error msg => rw [hn] at h; exact Except.noConfusion h
      | ok es =>
        rw [hn] at h
        injection h with h2
        subst h2
        exact ⟨rfl, rfl, rfl⟩
  | false =>
    rw [hb] at h
    cases hn : normalize_all f img
        ((parse (resolved_url url)).entries.take (effective_limit lim)) with
    | error msg => rw [hn] at h; exact Except.noConfusion h
    | ok es =>
      rw [hn] at h
      injection h with h2
      subst h2
      exact ⟨rfl, rfl, rfl⟩

/-! ### Claim theorems -/

/-- Claim C1 (code bug evaluation).  The empty raw entry normalizes to a
`FeedEntry` with all seven fields present, empty strings for title and link
and `none` for the optional fields — but normalization is not total: the
entry whose only field is `link = "http://["` makes the `urlparse` call in
the source-attribution fallback raise `ValueError("Invalid IPv6 URL")`,
which `_normalize_entry` does not catch, contradicting the never-raises
specification. -/
theorem normalize_entry_bracket_link_error :
    normalize_entry id (fun _ => none) {} =
      Except.ok { title := "", summary := "", link := "",
                  published := none, source := none, subtitle := none,
                  image := none } ∧
    normalize_entry id (fun _ => none) { link := some "http://[" } =
      Except.error "Invalid IPv6 URL" :=
  ⟨rfl, rfl⟩

/-- Claim C4.  Whenever the parse reports the malformed-feed condition with
an underlying cause `c`, `fetch_feed` fails with a parse error whose message
is `"Unable to parse feed: " ++ c` — the message embeds the cause
description and no `FeedResult` is returned. -/
theorem fetch_feed_parse_error_embeds_cause (parse : String → ParsedFeed)
    (f : String → String) (img : String → Option String) (url : String)
    (lim : LimitVal) (c : String)
    (hb : (parse (resolved_url url)).bozo = true)
    (he : (parse (resolved_url url)).bozo_exception = some c) :
    fetch_feed parse f img url lim =
      Except.error ("Unable to parse feed: " ++ c) := by
  simp only [fetch_feed, hb, he]


theorem fetch_feed_parse_error_boom :
    fetch_feed (fun _ => bozoBoomFeed) id (fun _ => none)
        "https://example.com/feed" LimitVal.none =
      Except.error ("Unable to parse feed: " ++ "boom") :=
  fetch_feed_parse_error_embeds_cause (fun _ => bozoBoomFeed) id
    (fun _ => none) "https://example.com/feed" LimitVal.none "boom" rfl rfl

/-- Claim C10.  When the parser reports the bozo flag but supplies no
underlying exception, `fetch_feed` does not take the error branch: the
result is exactly the normal construction (default-completed feed metadata
plus the normalized, limit-truncated entries), for any value of the bozo
flag. -/
theorem fetch_feed_bozo_without_cause_is_normal (parse : String → ParsedFeed)
    (f : String → String) (img : String → Option String) (url : String)
    (lim : LimitVal)
    (he : (parse (resolved_url url)).bozo_exception = none) :
    fetch_feed parse f img url lim =
      (match normalize_all f img
          ((parse (resolved_url url)).entries.take (effective_limit lim)) with
       | Except.error msg => Except.error msg
       | Except.ok es =>
         Except.ok
           { feed_title := feed_title_of (parse (resolved_url url)),
             feed_link := feed_link_of (parse (resolved_url url))
               (resolved_url url),
             entries := es }) := by
  cases hb : (parse (resolved_url url)).bozo <;> simp only [fetch_feed, hb, he]


theorem fetch_feed_bozo_without_cause_instance :
    fetch_feed (fun _ => bozoNoCauseFeed) id (fun _ => none)
        "https://example.com/feed" LimitVal.none =
      (match normalize_all id (fun _ => none)
          (bozoNoCauseFeed.entries.take (effective_limit LimitVal.none)) with
       | Except.error msg => Except.error msg
       | Except.ok es =>
         Except.ok
           { feed_title := feed_title_of bozoNoCauseFeed,
             feed_link := feed_link_of bozoNoCauseFeed
               (resolved_url "https://example.com/feed"),
             entries := es }) :=
  fetch_feed_bozo_without_cause_is_normal (fun _ => bozoNoCauseFeed) id
    (fun _ => none) "https://example.com/feed" LimitVal.none rfl

/-- Claim C9.  On every successful fetch, a missing (absent or empty) feed
title yields the placeholder `"RSS Feed"`, and a missing feed link yields
the request URL (the URL actually passed to the parser, i.e. the
default-completed, stripped argument). -/
theorem fetch_feed_metadata_defaults (parse : String → ParsedFeed)
    (f : String → String) (img : String → Option String) (url : String)
    (lim : LimitVal) (r : FeedResult)
    (h : fetch_feed parse f img url lim = Except.ok r) :
    ((∀ m, (parse (resolved_url url)).feed = some m → m.title.getD "" = "") →
      r.feed_title = "RSS Feed") ∧
    ((∀ m, (parse (resolved_url url)).feed = some m → m.link.getD "" = "") →
      r.feed_link = resolved_url url) := by
  obtain ⟨-, ht, hl⟩ := fetch_feed_ok_inversion parse f img url lim r h
  constructor
  · intro hm
    rw [ht]
    unfold feed_title_of
    cases hf : (parse (resolved_url url)).feed with
    | none => rfl
    | some m =>
      have hmt := hm m hf
      show pyOrDefault m.title "RSS Feed" = "RSS Feed"
      cases hm2 : m.title with
      | none => rfl
      | some s =>
        rw [hm2] at hmt
        simp only [Option.getD_some] at hmt
        subst hmt
        rfl
  · intro hm
    rw [hl]
    unfold feed_link_of
    cases hf : (parse (resolved_url url)).feed with
    | none => rfl
    | some m =>
      have hmt := hm m hf
      show pyOrDefault m.link (resolved_url url) = resolved_url url
      cases hm2 : m.link with
      | none => rfl
      | some s =>
        rw [hm2] at hmt
        simp only [Option.getD_some] at hmt
        subst hmt
        rfl


theorem fetch_feed_metadata_defaults_instance :
    ((∀ m, ((fun _ => ({} : ParsedFeed))
        (resolved_url "https://example.com/feed")).feed = some m →
        m.title.getD "" = "") → emptyFeedResult.feed_title = "RSS Feed") ∧
    ((∀ m, ((fun _ => ({} : ParsedFeed))
        (resolved_url "https://example.com/feed")).feed = some m →
        m.link.getD "" = "") →
      emptyFeedResult.feed_link = resolved_url "https://example.com/feed") :=
  fetch_feed_metadata_defaults (fun _ => {}) id (fun _ => none)
    "https://example.com/feed" LimitVal.none emptyFeedResult rfl

/-- Claim C3.  On every successful fetch the number of entries kept is at
most the effective limit, the effective limit never exceeds the fixed cap
(100), an omitted / non-numeric / non-positive limit yields the cap while a
positive numeric limit yields `min(limit, 100)`, and the kept entries are
exactly the normalizations of the first `effective_limit` raw entries in
source order (entries beyond the limit are dropped, not an error). -/
theorem fetch_feed_limit_clamp (parse : String → ParsedFeed)
    (f : String → String) (img : String → Option String) (url : String)
    (lim : LimitVal) (i : Int) (r : FeedResult)
    (h : fetch_feed parse f img url lim = Except.ok r) :
    r.entries.length ≤ effective_limit lim ∧
    effective_limit lim ≤ MAX_ITEMS ∧
    (lim = LimitVal.num i → 0 < i →
      effective_limit lim = min i.toNat MAX_ITEMS) ∧
    ((lim = LimitVal.none ∨ lim = LimitVal.other ∨
        (lim = LimitVal.num i ∧ i ≤ 0)) →
      effective_limit lim = MAX_ITEMS) ∧
    List.Forall₂ (fun e fe => normalize_entry f img e = Except.ok fe)
      ((parse (resolved_url url)).entries.take (effective_limit lim))
      r.entries := by
  obtain ⟨hn, -, -⟩ := fetch_feed_ok_inversion parse f img url lim r h
  have hf2 := normalize_all_forall2 f img _ _ hn
  refine ⟨?_, ?_, ?_, ?_, hf2⟩
  · rw [← List.Forall₂.length_eq hf2, List.length_take]
    exact min_le_left _ _
  · cases lim with
    | none => exact Nat.le_refl _
    | other => exact Nat.le_refl _
    | num j =>
      show (if j ≤ 0 then MAX_ITEMS else min j.toNat MAX_ITEMS) ≤ MAX_ITEMS
      by_cases hj : j ≤ 0
      · rw [if_pos hj]
      · rw [if_neg hj]
        exact min_le_right _ _
  · intro hlim hi
    subst hlim
    show (if i ≤ 0 then MAX_ITEMS else min i.toNat MAX_ITEMS) =
      min i.toNat MAX_ITEMS
    rw [if_neg (by omega)]
  · intro hcase
    rcases hcase with hc | hc | ⟨hc, hneg⟩
    · subst hc; rfl
    · subst hc; rfl
    · subst hc
      show (if i ≤ 0 then MAX_ITEMS else min i.toNat MAX_ITEMS) = MAX_ITEMS
      rw [if_pos hneg]



theorem fetch_feed_limit_clamp_instance :
    threeEmptyResult.entries.length ≤ effective_limit (LimitVal.num 3) ∧
    effective_limit (LimitVal.num 3) ≤ MAX_ITEMS ∧
    (LimitVal.num 3 = LimitVal.num 3 → 0 < (3 : Int) →
      effective_limit (LimitVal.num 3) = min (3 : Int).toNat MAX_ITEMS) ∧
    ((LimitVal.num 3 = LimitVal.none ∨ LimitVal.num 3 = LimitVal.other ∨
        (LimitVal.num 3 = LimitVal.num 3 ∧ (3 : Int) ≤ 0)) →
      effective_limit (LimitVal.num 3) = MAX_ITEMS) ∧
    List.Forall₂
      (fun e fe => normalize_entry id (fun _ => none) e = Except.ok fe)
      (((fun _ => sevenEntriesFeed)
          (resolved_url "https://example.com/feed")).entries.take
        (effective_limit (LimitVal.num 3)))
      threeEmptyResult.entries :=
  fetch_feed_limit_clamp (fun _ => sevenEntriesFeed) id (fun _ => none)
    "https://example.com/feed" (LimitVal.num 3) 3 threeEmptyResult rfl

/-- Claim C7.  On every successful normalization the published field is the
formatted parsed-published time (falling back to the parsed-updated time),
where formatting yields `none` for an absent time, yields `none` for a
struct time rejected by the datetime range check, and otherwise renders the
six components as a timezone-free ISO-8601 string. -/
theorem normalize_entry_published_policy (f : String → String)
    (img : String → Option String) (e : RawEntry) (fe : FeedEntry)
    (t : StructTime) (h : normalize_entry f img e = Except.ok fe) :
    fe.published = format_datetime
      (match e.published_parsed with
       | some t0 => some t0
       | none => e.updated_parsed) ∧
    format_datetime none = none ∧
    format_datetime (some t) =
      (if validDatetime t then some (isoFormat t) else none) := by
  refine ⟨?_, rfl, rfl⟩
  simp only [normalize_entry] at h
  cases hs : resolve_source (source_title e) (pyStrip (e.link.getD "")) with
  | error msg => rw [hs] at h; exact Except.noConfusion h
  | ok src =>
    rw [hs] at h
    injection h with h2
    subst h2
    rfl



theorem normalize_entry_published_policy_instance :
    julyFeedEntry.published = format_datetime
      (match julyEntry.published_parsed with
       | some t0 => some t0
       | none => julyEntry.updated_parsed) ∧
    format_datetime none = none ∧
    format_datetime (some ⟨2024, 2, 30, 10, 30, 0⟩) =
      (if validDatetime ⟨2024, 2, 30, 10, 30, 0⟩
       then some (isoFormat ⟨2024, 2, 30, 10, 30, 0⟩) else none) :=
  normalize_entry_published_policy id (fun _ => none) julyEntry julyFeedEntry
    ⟨2024, 2, 30, 10, 30, 0⟩ rfl

/-- Claim C8.  On every successful normalization: a non-empty trimmed title
of an explicit nested source dict wins; otherwise, when the trimmed link is
non-empty and the URL parse yields a network-location component, the source
is that component when non-empty and `none` otherwise; with no link it is
`none`. -/
theorem normalize_entry_source_policy (f : String → String)
    (img : String → Option String) (e : RawEntry) (fe : FeedEntry)
    (tl n : String) (h : normalize_entry f img e = Except.ok fe) :
    (source_title e = some tl → fe.source = some tl) ∧
    (source_title e = none →
      urlparseNetloc (pyStrip (e.link.getD "")) = Except.ok n →
      fe.source = (if pyStrip (e.link.getD "") == "" then none
                   else if n == "" then none else some n)) := by
  simp only [normalize_entry] at h
  cases hs : resolve_source (source_title e) (pyStrip (e.link.getD "")) with
  | error msg => rw [hs] at h; exact Except.noConfusion h
  | ok src =>
    rw [hs] at h
    injection h with h2
    subst h2
    constructor
    · intro hst
      show src = some tl
      unfold resolve_source at hs
      rw [hst] at hs
      simp only [Option.isNone_some, Bool.false_and, if_false] at hs
      injection hs with hs2
      exact hs2.symm
    · intro hst hu
      show src = _
      unfold resolve_source at hs
      rw [hst] at hs
      by_cases hl : pyStrip (e.link.getD "") == ""
      · rw [if_neg (by simp [hl])] at hs
        rw [if_pos hl]
        injection hs with hs2
        exact hs2.symm
      · rw [if_pos (by simp [hl]), hu] at hs
        rw [if_neg hl]
        injection hs with hs2
        exact hs2.symm



theorem normalize_entry_source_policy_instance :
    newsFeedEntry.source = some "news.example.com" := by
  have hpol := normalize_entry_source_policy id (fun _ => none) newsEntry
    newsFeedEntry "unused" "news.example.com" rfl
  have h2 := hpol.2 rfl rfl
  rw [h2]
  rfl

theorem sentence_clip_le_160 (c t : String) (h : sentence_clip c = some t) :
    t.length ≤ 160 := by
  unfold sentence_clip at h
  dsimp only [] at h
  split at h
  · rename_i h160
    injection h with h2
    subst h2
    rw [String.length_append]
    have h1 : (pyRstrip (String.mk
        ((pyStrip (String.mk (firstSentenceChars c.data))).data.take
          157))).length ≤ 157 := by
      refine le_trans (pyRstrip_length_le _) ?_
      rw [length_mk, List.length_take]
      exact min_le_left _ _
    have h3 : srcEllipsis.length = 3 := rfl
    omega
  · split at h
    · exact Option.noConfusion h
    · rename_i h160 hne
      injection h with h2
      subst h2
      omega

set_option maxRecDepth 8192 in
theorem derive_subtitle_fallback_eq (f : String → String) (e : RawEntry)
    (s : String) :
    derive_subtitle f e s =
      (if truthy e.subtitle then some (extract_plain_text f e.subtitle)
       else Option.bind (chosen_fallback_text f e s) sentence_clip) := by
  by_cases hsub : truthy e.subtitle
  · unfold derive_subtitle
    rw [if_pos hsub, if_pos hsub]
  · unfold derive_subtitle chosen_fallback_text sentence_clip
    rw [if_neg hsub, if_neg hsub]
    cases hsd : e.summary_detail with
    | none =>
      by_cases hs0 : s == ""
      · simp [hs0]
      · simp [hs0]
    | some sd =>
      cases sd with
      | nondict =>
        by_cases hs0 : s == ""
        · simp [hs0]
        · simp [hs0]
      | dict v =>
        by_cases hv : truthy v
        · by_cases hD : extract_plain_text f v == ""
          · by_cases hs0 : s == ""
            · simp [hv, hD, hs0]
            · simp [hv, hD, hs0]
          · by_cases hs0 : s == ""
            · simp [hv, hD, hs0]
            · simp [hv, hD, hs0]
        · by_cases hs0 : s == ""
          · simp [hv, hs0]
          · simp [hv, hs0]

set_option maxRecDepth 65536 in
/-- Claim C2 (counterexample).  An entry whose explicit `subtitle` field is
a 200-character text is returned verbatim by `_derive_subtitle` (the
explicit-subtitle branch bypasses the truncation), so the produced subtitle
is non-null with length 200 > 160. -/
theorem derive_subtitle_explicit_exceeds_160 :
    derive_subtitle id { subtitle := some longSubtitleText } "" =
      some longSubtitleText ∧
    160 < longSubtitleText.length :=
  ⟨rfl, by decide⟩

/-- Claim C2 (amended).  Whenever the subtitle is not taken from an explicit
non-empty `subtitle` field — i.e. it is derived from the summary-detail or
summary fallback — any non-null result has length at most 160 (at most 157
characters plus the three-character truncation marker). -/
theorem derive_subtitle_fallback_le_160 (f : String → String) (e : RawEntry)
    (s t : String) (hsub : truthy e.subtitle = false)
    (h : derive_subtitle f e s = some t) : t.length ≤ 160 := by
  rw [derive_subtitle_fallback_eq] at h
  rw [if_neg (by simp [hsub])] at h
  cases hc : chosen_fallback_text f e s with
  | none => rw [hc] at h; exact Option.noConfusion h
  | some c =>
    rw [hc] at h
    exact sentence_clip_le_160 c t h

set_option maxRecDepth 65536 in
theorem derive_subtitle_fallback_le_160_instance :
    clippedLongText.length ≤ 160 :=
  derive_subtitle_fallback_le_160 id {} longSubtitleText clippedLongText
    rfl rfl

/-- Claim C5 (counterexample).  On the entry whose explicit `subtitle` field
is `"Hi. There"`, the code returns the whole text `"Hi. There"` while the
claimed pipeline (sentence split applied to whichever source text is
chosen) would return the first sentence `"Hi."`: the claim fails on the
explicit-subtitle path. -/
theorem derive_subtitle_claim_pipeline_mismatch :
    derive_subtitle id { subtitle := some "Hi. There" } "" =
      some "Hi. There" ∧
    subtitle_claim_pipeline id { subtitle := some "Hi. There" } "" =
      some "Hi." ∧
    derive_subtitle id { subtitle := some "Hi. There" } "" ≠
      subtitle_claim_pipeline id { subtitle := some "Hi. There" } "" :=
  ⟨rfl, rfl, by decide⟩

/-- Claim C5 (amended).  An explicit non-empty `subtitle` field is returned
HTML-stripped verbatim (no sentence split, no truncation, possibly empty
rather than null); only otherwise is the source text chosen (non-empty
summary-detail text, else non-empty summary) and passed through the
sentence pipeline: split after a period followed by whitespace, take the
first sentence, trim, and when longer than 160 characters truncate to 157
characters, strip trailing whitespace and append the source's
three-character ellipsis marker; an empty result yields null. -/
theorem derive_subtitle_policy (f : String → String) (e : RawEntry)
    (s : String) :
    derive_subtitle f e s =
      (if truthy e.subtitle then some (extract_plain_text f e.subtitle)
       else Option.bind (chosen_fallback_text f e s) sentence_clip) :=
  derive_subtitle_fallback_eq f e s

/-- Claim C6.  Image discovery is exactly the five-step priority order of
the specification (first match wins: media-content URL, media-thumbnail
URL, image-typed link, summary-detail `<img src>`, summary `<img src>`);
in particular an entry carrying both a media-content URL and an inline
`<img>` in its summary resolves to the media-content URL even though the
inline image would match on its own, and an entry matching no step yields
`none`. -/
theorem extract_image_priority :
    (∀ imgSrc e, extract_image imgSrc e = image_priority_spec imgSrc e) ∧
    extract_image demoImgSrc mediaAndInlineEntry =
      some "https://cdn.example.com/media.jpg" ∧
    extract_image demoImgSrc { summary := some inlineSummaryHtml } =
      some "https://example.com/inline.jpg" ∧
    extract_image (fun _ => none) {} = none := by
  refine ⟨?_, rfl, rfl, rfl⟩
  intro imgSrc e
  unfold extract_image image_priority_spec media_content_image
    media_thumbnail_image link_image summary_detail_image summary_image
    orElseO
  cases h1 : firstMediaUrl e.media_content with
  | some u => rfl
  | none =>
  cases h2 : firstMediaUrl e.media_thumbnail with
  | some u => rfl
  | none =>
  cases h3 : firstImageLink (e.links.getD []) with
  | some u => rfl
  | none =>
  cases h4 : e.summary_detail with
  | none =>
    cases h5 : pyOrStr e.summary e.description with
    | none => rfl
    | some sh => rfl
  | some sd =>
    cases sd with
    | nondict =>
      cases h5 : pyOrStr e.summary e.description with
      | none => rfl
      | some sh => rfl
    | dict v =>
      cases v with
      | none =>
        cases h5 : pyOrStr e.summary e.description with
        | none => rfl
        | some sh => rfl
      | some hv =>
        dsimp only []
        cases hhv : hv == "" with
        | true =>
          rw [if_pos rfl]
        | false =>
          rw [if_neg Bool.false_ne_true]
          cases him : imgSrc hv with
          | some u => rfl
          | none =>
            cases h5 : pyOrStr e.summary e.description with
            | none => rfl
            | some sh => rfl

end Rss
